import Mathlib

/-!
Shallow embedding of the BG-API background-removal service (src/main.py)
and verification of its specification claims.

The embedding mirrors the Python source: configuration constants, the
upload validator, the image-mode normalizer inside process_image, the
request handler remove_background, and the error boundaries. External
collaborators (PIL decoding, the rembg inference call) are parameters of
the embedded functions, as the spec treats them as black boxes.
-/

namespace BGAPI

/-- MAX_FILE_SIZE from src/main.py line 29: 10 * 1024 * 1024 bytes. -/
def MAX_FILE_SIZE : Nat := 10 * 1024 * 1024

/-- ALLOWED_EXTENSIONS from src/main.py lines 32-39: the MIME-type allow-list. -/
def ALLOWED_EXTENSIONS : List String :=
  ["image/jpeg", "image/jpg", "image/png", "image/gif",
   "image/bmp", "image/tiff", "image/webp", "image/x-icon",
   "image/vnd.microsoft.icon", "image/avif", "image/heic",
   "image/heif", "image/x-tga", "image/x-pcx", "image/x-portable-pixmap",
   "image/x-portable-graymap", "image/x-portable-bitmap",
   "image/x-portable-anymap", "image/x-ms-bmp"]

/-- The filename-extension allow-list inlined in validate_image,
src/main.py lines 92-96. -/
def validationExtensions : List String :=
  [".jpg", ".jpeg", ".png", ".gif", ".bmp", ".tiff",
   ".tif", ".webp", ".ico", ".avif", ".heic", ".heif",
   ".tga", ".pcx", ".ppm", ".pgm", ".pbm", ".pnm"]

/-- An HTTPException as raised in src/main.py: a status code and a detail string. -/
structure HTTPError where
  status_code : Nat
  detail : String
deriving DecidableEq, Repr

deriving instance DecidableEq for Except

/-- The byte stream backing an upload (file.file in src/main.py): the full
byte content together with the current cursor position, as manipulated by
seek and tell in validate_image lines 102-105. Bytes are modelled as Nat. -/
structure FileStream where
  data : List Nat
  pos : Nat
deriving DecidableEq, Repr

/-- An UploadFile as received by the handler: declared content type (none
models a missing header, which is falsy in Python), filename, and stream. -/
structure UploadFile where
  content_type : Option String
  filename : String
  file : FileStream
deriving DecidableEq, Repr

/-- Truthiness of file.content_type in the Python condition on line 90:
None and the empty string are falsy. -/
def ctTruthy : Option String → Bool
  | none => false
  | some s => !(s == "")

/-- Python str.endswith over character lists: the candidate ending, read
in reverse, is a prefix of the string read in reverse. -/
def charEndsWith (s ending : List Char) : Bool :=
  ending.reverse.isPrefixOf s.reverse

/-- The any-extension test of src/main.py lines 92-96:
file.filename.lower().endswith(ext) over the inlined extension list. -/
def extensionAllowed (filename : String) : Bool :=
  validationExtensions.any
    (fun ext => charEndsWith (filename.data.map Char.toLower) ext.data)

/-- The condition under which validate_image raises the invalid-type
HTTPException, src/main.py lines 90-100: content type is truthy and not in
ALLOWED_EXTENSIONS, and no allow-listed extension matches the filename. -/
def formatRejected (f : UploadFile) : Bool :=
  ctTruthy f.content_type
    && !(ALLOWED_EXTENSIONS.contains (f.content_type.getD ""))
    && !(extensionAllowed f.filename)

/-- Detail string of the invalid-type HTTPException, src/main.py line 99. -/
def invalidTypeDetail : String :=
  "Invalid file type. Supported formats: JPEG, PNG, GIF, BMP, TIFF, WebP, ICO, AVIF, and more"

/-- Rendering of a byte count in megabytes with one decimal digit, as the
f-string on src/main.py line 110 formats MAX_FILE_SIZE / (1024*1024) with :.1f. -/
def mbOneDecimal (bytes : Nat) : String :=
  let tenths := bytes * 10 / (1024 * 1024)
  toString (tenths / 10) ++ "." ++ toString (tenths % 10)

/-- Detail string of the too-large HTTPException, src/main.py line 110. -/
def tooLargeDetail : String :=
  "File too large. Maximum size: " ++ mbOneDecimal MAX_FILE_SIZE ++ "MB"

/-- Detail string of the empty-file HTTPException, src/main.py line 116. -/
def emptyDetail : String := "Empty file uploaded"

/-- The size checks of validate_image, src/main.py lines 107-117, applied
to the size obtained by seeking to the end of the stream: first the
too-large check, then the empty check. Returns the raised HTTPException,
if any. -/
def sizeCheck (file_size : Nat) : Option HTTPError :=
  if file_size > MAX_FILE_SIZE then
    some ⟨400, tooLargeDetail⟩
  else if file_size == 0 then
    some ⟨400, emptyDetail⟩
  else
    none

/-- validate_image from src/main.py lines 85-117. The format check runs
first; then seek(0, 2) and tell measure the full byte length, seek(0)
resets the cursor, and the size checks run. On success the upload is
returned with its stream cursor at 0, everything else unchanged. -/
def validate_image (f : UploadFile) : Except HTTPError UploadFile :=
  if formatRejected f then
    .error ⟨400, invalidTypeDetail⟩
  else
    let file_size := f.file.data.length
    let f' : UploadFile := { f with file := { f.file with pos := 0 } }
    match sizeCheck file_size with
    | some e => .error e
    | none => .ok f'

/-- A decoded in-memory image as PIL exposes it: width, height, the mode
string, and whether the transparency key is present in image.info (the
test on src/main.py line 136). -/
structure PILImage where
  width : Nat
  height : Nat
  mode : String
  hasTransparencyInfo : Bool
deriving DecidableEq, Repr

/-- PIL Image.convert(m): produces an image of mode m with the same
dimensions; the transparency metadata of the source is consumed by the
conversion and not carried over as an info key. -/
def convert (img : PILImage) (m : String) : PILImage :=
  { img with mode := m, hasTransparencyInfo := false }

/-- The mode-normalization branch table of process_image, src/main.py
lines 133-153, transcribed branch for branch. -/
def normalizeMode (input_image : PILImage) : PILImage :=
  if !(input_image.mode == "RGB" || input_image.mode == "RGBA") then
    if input_image.mode == "P" then
      if input_image.hasTransparencyInfo then convert input_image "RGBA"
      else convert input_image "RGB"
    else if input_image.mode == "L" || input_image.mode == "LA" then
      if input_image.mode == "LA" then convert input_image "RGBA"
      else convert input_image "RGB"
    else if input_image.mode == "1" then convert input_image "RGB"
    else if input_image.mode == "CMYK" then convert input_image "RGB"
    else convert input_image "RGB"
  else input_image

/-- The serialized response body produced by output_image.save(buffer,
format="PNG") on src/main.py line 160: the encoding format together with
the pixel buffer it stores, so that decoding the bytes recovers the image. -/
structure EncodedImage where
  format : String
  image : PILImage
deriving DecidableEq, Repr

/-- The model session handle created by new_session on src/main.py line 52,
kept opaque apart from the model name it was created with. -/
structure ModelSession where
  model_name : String
deriving DecidableEq, Repr

/-- The global model_session after a successful startup of the lifespan
context manager, src/main.py line 52. -/
def startupSession : Option ModelSession := some ⟨"u2netp"⟩

/-- The global model_session before startup (line 26) and after shutdown
(line 62): None in both cases. -/
def uninitializedSession : Option ModelSession := none

/-- process_image from src/main.py lines 120-170. The PIL decode of the
byte content and the rembg remove call are external black boxes, passed as
parameters; each either returns an image or raises with a message. Any
exception inside the body is caught and re-raised as an HTTPException with
status 500 and the message appended to a fixed prefix (lines 165-170).
The remove call receives the global model_session unconditionally. -/
def process_image
    (decode : List Nat → Except String PILImage)
    (removeFn : Option ModelSession → PILImage → Except String PILImage)
    (model_session : Option ModelSession)
    (file_content : List Nat) : Except HTTPError EncodedImage :=
  match decode file_content with
  | .error e => .error ⟨500, "Failed to process image: " ++ e⟩
  | .ok input0 =>
    let input_image := normalizeMode input0
    match removeFn model_session input_image with
    | .error e => .error ⟨500, "Failed to process image: " ++ e⟩
    | .ok output_image => .ok { format := "PNG", image := output_image }

/-- Helper for stemOf: drop characters of the reversed filename up to and
including the first dot; none when no dot occurs. -/
def dropThroughDot : List Char → Option (List Char)
  | [] => none
  | c :: rest => if c == '.' then some rest else dropThroughDot rest

/-- The Python expression filename.rsplit(".", 1)[0] on src/main.py
line 238: everything before the last dot, or the whole string when it has
no dot. -/
def stemOf (s : String) : String :=
  match dropThroughDot s.data.reverse with
  | some r => ⟨r.reverse⟩
  | none => s

/-- The outcome of the remove_background handler: either the
StreamingResponse built on src/main.py lines 234-240 (status 200 by
default) or an HTTP error response with a status code and detail. -/
inductive Response where
  | streaming (status_code : Nat) (media_type : String)
      (content_disposition : String) (body : EncodedImage)
  | failure (status_code : Nat) (detail : String)
deriving DecidableEq, Repr

/-- The remove_background handler, src/main.py lines 205-249: validate the
upload, read the stream from its current position, process the bytes, and
on success return a streaming PNG response with the derived
Content-Disposition header. HTTPExceptions raised by the steps are
re-raised unchanged and become error responses with their own status and
detail. -/
def remove_background
    (model_session : Option ModelSession)
    (decode : List Nat → Except String PILImage)
    (removeFn : Option ModelSession → PILImage → Except String PILImage)
    (file : UploadFile) : Response :=
  match validate_image file with
  | .error e => .failure e.status_code e.detail
  | .ok f' =>
    let file_content := f'.file.data.drop f'.file.pos
    match process_image decode removeFn model_session file_content with
    | .error e => .failure e.status_code e.detail
    | .ok output_bytes =>
      .streaming 200 "image/png"
        ("attachment; filename=nobg_" ++ stemOf file.filename ++ ".png")
        output_bytes

/-- An exception reaching the outer try of the handler, src/main.py
lines 242-249: either an HTTPException or any other exception carrying a
message. -/
inductive PyError where
  | http (e : HTTPError)
  | other (msg : String)
deriving DecidableEq, Repr

/-- The outer exception boundary of remove_background, src/main.py
lines 242-249: HTTPExceptions are re-raised unchanged; every other
exception becomes a 500 with the fixed generic detail. -/
def handlerBoundary : PyError → HTTPError
  | .http e => e
  | .other _ => ⟨500, "Internal server error"⟩

/-- global_exception_handler from src/main.py lines 252-261: any uncaught
exception is answered with a 500 JSON response whose detail is the fixed
generic string, independent of the exception. -/
def global_exception_handler (_exc : String) : HTTPError :=
  ⟨500, "Internal server error"⟩

/-! Spec-side definitions, written from the words of the specification and
of the claims, for comparison against the embedded source functions. -/

/-- Modelled from the spec: the mode-normalization policy table of
section 4.2, read row by row: RGB and RGBA unchanged, paletted according
to transparency metadata, grayscale according to the alpha variant, 1-bit
and CMYK to RGB, and any other mode to RGB. -/
def specNormalizedMode (mode : String) (hasTransparency : Bool) : String :=
  if mode == "RGB" || mode == "RGBA" then mode
  else if mode == "P" then (if hasTransparency then "RGBA" else "RGB")
  else if mode == "LA" then "RGBA"
  else "RGB"

/-- Modelled from the spec: the PIL modes that carry an alpha channel
(straight or premultiplied), per the PIL mode documentation the spec
leans on when it speaks of modes that declare transparency. -/
def modeHasAlpha (m : String) : Bool :=
  m == "RGBA" || m == "LA" || m == "PA" || m == "RGBa" || m == "La"

/-- Modelled from the spec: a source image declares transparency when its
mode carries an alpha channel or its info carries the transparency key. -/
def declaresTransparency (img : PILImage) : Bool :=
  modeHasAlpha img.mode || img.hasTransparencyInfo

/-- Modelled from the spec: a declared content type is outside the MIME
allow-list when it is absent or not a member of the list; the claim treats
missing content-type metadata as a case the extension fallback must cover. -/
def specDeclaredOutsideAllowList (ct : Option String) : Bool :=
  match ct with
  | none => true
  | some s => !(ALLOWED_EXTENSIONS.contains s)

/-- Modelled from the spec: the image encodings that support a per-pixel
alpha channel, among which PNG, the fixed output format of the service. -/
def formatSupportsAlpha (f : String) : Bool :=
  f == "PNG" || f == "WEBP" || f == "TIFF"

/-- Claim C2 as stated: the normalizer follows the policy table exactly
and never drops the alpha channel when the source declares transparency. -/
def c2ClaimedProperty : Prop :=
  ∀ img : PILImage,
    (normalizeMode img).mode = specNormalizedMode img.mode img.hasTransparencyInfo
    ∧ (declaresTransparency img = true →
        modeHasAlpha (normalizeMode img).mode = true)

/-- Claim C3 as stated: validation fails with the invalid-type 400 exactly
when the declared content type is outside the MIME allow-list and the
filename extension is outside the extension allow-list. -/
def c3ClaimedProperty : Prop :=
  ∀ u : UploadFile,
    validate_image u = .error ⟨400, invalidTypeDetail⟩
      ↔ (specDeclaredOutsideAllowList u.content_type = true
          ∧ extensionAllowed u.filename = false)

/-- Claim C4 as stated: a zero-length upload is always answered with the
400 empty-file detail, whatever its declared type and filename. -/
def c4ClaimedProperty : Prop :=
  ∀ u : UploadFile,
    u.file.data.length = 0 →
    validate_image u = .error ⟨400, emptyDetail⟩

/-- Claim C8 as stated: a request arriving while the model session is
None (uninitialized or released) fails, rather than proceeding to a
success response. -/
def c8ClaimedProperty : Prop :=
  ∀ (decode : List Nat → Except String PILImage)
    (removeFn : Option ModelSession → PILImage → Except String PILImage)
    (u : UploadFile) (hdr : String) (enc : EncodedImage),
    remove_background uninitializedSession decode removeFn u
      ≠ Response.streaming 200 "image/png" hdr enc

/-! Helper lemmas shared by the claim theorems. -/

theorem sizeCheck_none_of (n : Nat) (h0 : n ≠ 0) (hmax : n ≤ MAX_FILE_SIZE) :
    sizeCheck n = none := by
  simp [sizeCheck, h0, Nat.not_lt.mpr hmax]

theorem sizeCheck_some_cases (n : Nat) (e : HTTPError)
    (h : sizeCheck n = some e) :
    e = ⟨400, tooLargeDetail⟩ ∨ e = ⟨400, emptyDetail⟩ := by
  unfold sizeCheck at h
  split at h
  · exact Or.inl (Option.some.inj h).symm
  · split at h
    · exact Or.inr (Option.some.inj h).symm
    · cases h

theorem validate_image_ok_of (u : UploadFile)
    (hfmt : formatRejected u = false)
    (h0 : u.file.data.length ≠ 0)
    (hmax : u.file.data.length ≤ MAX_FILE_SIZE) :
    validate_image u = .ok { u with file := { u.file with pos := 0 } } := by
  simp [validate_image, hfmt, sizeCheck_none_of _ h0 hmax]

theorem validate_image_error_status (u : UploadFile) (e : HTTPError)
    (h : validate_image u = .error e) : e.status_code = 400 := by
  unfold validate_image at h
  split at h
  · cases h; rfl
  · simp only at h
    cases hsc : sizeCheck u.file.data.length with
    | none => rw [hsc] at h; cases h
    | some e' =>
      rw [hsc] at h
      cases h
      rcases sizeCheck_some_cases _ _ hsc with h' | h' <;> rw [h']

theorem process_image_error_status
    (decode : List Nat → Except String PILImage)
    (removeFn : Option ModelSession → PILImage → Except String PILImage)
    (session : Option ModelSession) (content : List Nat) (e : HTTPError)
    (h : process_image decode removeFn session content = .error e) :
    e.status_code = 500 := by
  unfold process_image at h
  cases hd : decode content with
  | error m => rw [hd] at h; cases h; rfl
  | ok img =>
    rw [hd] at h
    simp only at h
    cases hr : removeFn session (normalizeMode img) with
    | error m => rw [hr] at h; cases h; rfl
    | ok o => rw [hr] at h; cases h

theorem normalizeMode_width (img : PILImage) :
    (normalizeMode img).width = img.width := by
  unfold normalizeMode convert
  repeat' split
  all_goals rfl

theorem normalizeMode_height (img : PILImage) :
    (normalizeMode img).height = img.height := by
  unfold normalizeMode convert
  repeat' split
  all_goals rfl

/-! Claim theorems. -/

/-- C5: the size check fails with the 400 too-large outcome exactly when
the byte length strictly exceeds MAX_FILE_SIZE = 10 MiB; an upload of
exactly MAX_FILE_SIZE passes the size check; within validation, a
format-accepted upload draws the too-large error exactly when its length
exceeds the maximum; and the error detail names the configured maximum,
rendered as 10.0 megabytes. -/
theorem sizeCheck_payload_too_large :
    (∀ n : Nat, sizeCheck n = some ⟨400, tooLargeDetail⟩ ↔ MAX_FILE_SIZE < n)
    ∧ sizeCheck MAX_FILE_SIZE = none
    ∧ (∀ u : UploadFile, formatRejected u = false →
        (validate_image u = .error ⟨400, tooLargeDetail⟩
          ↔ MAX_FILE_SIZE < u.file.data.length))
    ∧ tooLargeDetail = "File too large. Maximum size: "
        ++ mbOneDecimal MAX_FILE_SIZE ++ "MB"
    ∧ mbOneDecimal MAX_FILE_SIZE = "10.0" := by
  have hiff : ∀ n : Nat,
      sizeCheck n = some ⟨400, tooLargeDetail⟩ ↔ MAX_FILE_SIZE < n := by
    intro n
    constructor
    · intro h
      by_contra hn
      rw [sizeCheck] at h
      rw [if_neg hn] at h
      split at h
      · have h2 := Option.some.inj h
        have hd := congrArg HTTPError.detail h2
        exact absurd hd (by decide)
      · cases h
    · intro h
      simp [sizeCheck, h]
  refine ⟨hiff, by decide, fun u hfmt => ?_, rfl, by decide⟩
  constructor
  · intro h
    unfold validate_image at h
    rw [hfmt] at h
    simp only [Bool.false_eq_true, if_false] at h
    cases hsc : sizeCheck u.file.data.length with
    | none => rw [hsc] at h; cases h
    | some e =>
      rw [hsc] at h
      cases h
      exact (hiff _).mp hsc
  · intro h
    have hsc := (hiff u.file.data.length).mpr h
    simp [validate_image, hfmt, hsc]

/-- C5 witness: an upload one byte over the maximum draws the too-large
error, while exactly the maximum passes the size check. -/
theorem sizeCheck_payload_too_large_witness :
    sizeCheck (10 * 1024 * 1024 + 1) = some ⟨400, tooLargeDetail⟩
    ∧ sizeCheck MAX_FILE_SIZE = none :=
  ⟨(sizeCheck_payload_too_large.1 (10 * 1024 * 1024 + 1)).mpr (by decide),
   sizeCheck_payload_too_large.2.1⟩

/-- C4 counterexample: a zero-byte upload with declared type text/plain
and filename notes.txt is answered with the invalid-type detail, not with
the empty-file detail, because the format check runs before the size
check; hence the claim as stated is false. -/
theorem c4_counterexample :
    validate_image ⟨some "text/plain", "notes.txt", ⟨[], 0⟩⟩
      = .error ⟨400, invalidTypeDetail⟩
    ∧ ¬ c4ClaimedProperty := by
  constructor
  · decide
  · intro h
    have h2 := h ⟨some "text/plain", "notes.txt", ⟨[], 0⟩⟩ rfl
    exact absurd h2 (by decide)

/-- C4 amended: for every upload of byte length zero that is not rejected
by the format check, validation fails with the 400 empty-file detail, and
that detail mentions an empty file. -/
theorem empty_upload_400 (u : UploadFile)
    (hfmt : formatRejected u = false)
    (hlen : u.file.data.length = 0) :
    validate_image u = .error ⟨400, emptyDetail⟩
    ∧ "mpty".data <:+: emptyDetail.data := by
  refine ⟨?_, by decide⟩
  simp [validate_image, hfmt, hlen, sizeCheck, MAX_FILE_SIZE]

/-- C4 witness: the zero-byte upload named x.png of declared type
image/png draws the empty-file error. -/
theorem empty_upload_400_witness :
    validate_image ⟨some "image/png", "x.png", ⟨[], 0⟩⟩
      = .error ⟨400, emptyDetail⟩
    ∧ "mpty".data <:+: emptyDetail.data :=
  empty_upload_400 ⟨some "image/png", "x.png", ⟨[], 0⟩⟩ (by decide) rfl

/-- C3 counterexample: an upload with no declared content type and the
non-image filename notes.txt passes validation, although its content type
is outside the MIME allow-list and its extension is outside the extension
allow-list; the claimed equivalence is therefore false: with falsy
content-type metadata the code skips the format check entirely instead of
falling back to the extension check. -/
theorem c3_counterexample :
    validate_image ⟨none, "notes.txt", ⟨[1], 0⟩⟩
      = .ok ⟨none, "notes.txt", ⟨[1], 0⟩⟩
    ∧ specDeclaredOutsideAllowList none = true
    ∧ extensionAllowed "notes.txt" = false
    ∧ ¬ c3ClaimedProperty := by
  refine ⟨by decide, rfl, by decide, fun h => ?_⟩
  have h2 := (h ⟨none, "notes.txt", ⟨[1], 0⟩⟩).mpr ⟨rfl, by decide⟩
  exact absurd h2 (by decide)

/-- C3 amended: validation fails with the 400 invalid-type detail exactly
when the declared content type is present and non-empty, outside the MIME
allow-list, and the filename extension is outside the extension
allow-list; when the content type is missing or empty the format check is
skipped and the extension is not consulted. -/
theorem invalid_type_400_iff :
    ∀ u : UploadFile,
      validate_image u = .error ⟨400, invalidTypeDetail⟩
        ↔ (ctTruthy u.content_type = true
            ∧ ALLOWED_EXTENSIONS.contains (u.content_type.getD "") = false
            ∧ extensionAllowed u.filename = false) := by
  intro u
  constructor
  · intro h
    by_cases hf : formatRejected u
    · simp only [formatRejected, Bool.and_eq_true, Bool.not_eq_true'] at hf
      exact ⟨hf.1.1, hf.1.2, hf.2⟩
    · exfalso
      rw [Bool.not_eq_true] at hf
      unfold validate_image at h
      rw [hf] at h
      simp only [Bool.false_eq_true, if_false] at h
      cases hsc : sizeCheck u.file.data.length with
      | none => rw [hsc] at h; cases h
      | some e =>
        rw [hsc] at h
        cases h
        rcases sizeCheck_some_cases _ _ hsc with h' | h' <;>
          exact absurd (congrArg HTTPError.detail h') (by decide)
  · intro ⟨h1, h2, h3⟩
    have hf : formatRejected u = true := by
      unfold formatRejected
      rw [h1, h2, h3]
      rfl
    simp [validate_image, hf]

/-- C3 amended witness: a present but wrong content type with a non-image
extension draws the invalid-type error. -/
theorem invalid_type_400_iff_witness :
    validate_image ⟨some "application/pdf", "doc.pdf", ⟨[1], 0⟩⟩
      = .error ⟨400, invalidTypeDetail⟩ :=
  (invalid_type_400_iff ⟨some "application/pdf", "doc.pdf", ⟨[1], 0⟩⟩).mpr
    ⟨rfl, by decide, by decide⟩

/-- C10: whenever validate_image succeeds, the returned upload has its
stream cursor at position 0 and is otherwise unchanged: same bytes, same
content type, same filename; hence the subsequent read from the cursor
obtains the complete payload. -/
theorem validate_resets_stream (u u' : UploadFile)
    (h : validate_image u = .ok u') :
    u'.file.pos = 0
    ∧ u'.file.data = u.file.data
    ∧ u'.content_type = u.content_type
    ∧ u'.filename = u.filename
    ∧ u'.file.data.drop u'.file.pos = u.file.data := by
  unfold validate_image at h
  split at h
  · cases h
  · simp only at h
    cases hsc : sizeCheck u.file.data.length with
    | some e => rw [hsc] at h; cases h
    | none =>
      rw [hsc] at h
      cases h
      exact ⟨rfl, rfl, rfl, rfl, List.drop_zero _⟩

/-- C10 witness: a validated upload whose cursor started at position 5 is
returned with cursor 0 and intact bytes. -/
theorem validate_resets_stream_witness :
    (⟨some "image/png", "x.png", ⟨[7, 8], 0⟩⟩ : UploadFile).file.pos = 0
    ∧ (⟨some "image/png", "x.png", ⟨[7, 8], 0⟩⟩ : UploadFile).file.data
        = (⟨some "image/png", "x.png", ⟨[7, 8], 5⟩⟩ : UploadFile).file.data
    ∧ (⟨some "image/png", "x.png", ⟨[7, 8], 0⟩⟩ : UploadFile).content_type
        = (⟨some "image/png", "x.png", ⟨[7, 8], 5⟩⟩ : UploadFile).content_type
    ∧ (⟨some "image/png", "x.png", ⟨[7, 8], 0⟩⟩ : UploadFile).filename
        = (⟨some "image/png", "x.png", ⟨[7, 8], 5⟩⟩ : UploadFile).filename
    ∧ (⟨some "image/png", "x.png", ⟨[7, 8], 0⟩⟩ : UploadFile).file.data.drop
        (⟨some "image/png", "x.png", ⟨[7, 8], 0⟩⟩ : UploadFile).file.pos
        = (⟨some "image/png", "x.png", ⟨[7, 8], 5⟩⟩ : UploadFile).file.data :=
  validate_resets_stream
    ⟨some "image/png", "x.png", ⟨[7, 8], 5⟩⟩
    ⟨some "image/png", "x.png", ⟨[7, 8], 0⟩⟩
    (by decide)

/-- C9: every exception that is not an HTTPException is answered, both at
the outer boundary of the handler and by the global exception handler,
with status 500 and exactly the fixed generic detail, independent of the
message carried by the exception. -/
theorem uncategorized_errors_generic_500 :
    (∀ msg : String,
      handlerBoundary (.other msg) = ⟨500, "Internal server error"⟩)
    ∧ (∀ msg : String,
      global_exception_handler msg = ⟨500, "Internal server error"⟩)
    ∧ (∀ m1 m2 : String,
      handlerBoundary (.other m1) = handlerBoundary (.other m2))
    ∧ (∀ e : HTTPError, handlerBoundary (.http e) = e) :=
  ⟨fun _ => rfl, fun _ => rfl, fun _ _ => rfl, fun _ => rfl⟩

/-- C6: a failure of any step inside image processing, be it the decode of
the bytes or the inference call, is caught and surfaced by the handler as
a 500 response whose detail is the fixed prefix followed by the underlying
message; the handler returns this response instead of crashing. -/
theorem processing_error_surfaces_500
    (decode : List Nat → Except String PILImage)
    (removeFn : Option ModelSession → PILImage → Except String PILImage)
    (session : Option ModelSession) (u : UploadFile) (msg : String)
    (hfmt : formatRejected u = false)
    (h0 : u.file.data.length ≠ 0)
    (hmax : u.file.data.length ≤ MAX_FILE_SIZE) :
    (decode u.file.data = .error msg →
      remove_background session decode removeFn u
        = .failure 500 ("Failed to process image: " ++ msg))
    ∧ (∀ img : PILImage, decode u.file.data = .ok img →
        removeFn session (normalizeMode img) = .error msg →
        remove_background session decode removeFn u
          = .failure 500 ("Failed to process image: " ++ msg)) := by
  have hval := validate_image_ok_of u hfmt h0 hmax
  constructor
  · intro hdec
    simp [remove_background, hval, process_image, hdec]
  · intro img hdec hrem
    simp [remove_background, hval, process_image, hdec, hrem]

/-- C6 witness: a failing inference call on a valid one-byte PNG upload
yields the 500 response carrying the underlying message. -/
theorem processing_error_surfaces_500_witness :
    remove_background startupSession
        (fun _ => .ok ⟨16, 16, "RGB", false⟩)
        (fun _ _ => .error "session is not loaded")
        ⟨some "image/png", "a.png", ⟨[1], 0⟩⟩
      = .failure 500 ("Failed to process image: " ++ "session is not loaded") :=
  (processing_error_surfaces_500
      (fun _ => .ok ⟨16, 16, "RGB", false⟩)
      (fun _ _ => .error "session is not loaded")
      startupSession ⟨some "image/png", "a.png", ⟨[1], 0⟩⟩
      "session is not loaded" (by decide) (by decide) (by decide)).2
    ⟨16, 16, "RGB", false⟩ rfl rfl

/-- C1: an upload with an allow-listed declared MIME type or allow-listed
filename extension, of byte length in the interval from 1 to
MAX_FILE_SIZE, whose bytes decode to an image, is answered by the handler
with a 200 streaming response of media type image/png whose body is a PNG
encoding of an image with the same width and height as the decoded input,
in a format that supports an alpha channel, assuming the inference call
succeeds preserving dimensions. -/
theorem remove_bg_success_contract
    (decode : List Nat → Except String PILImage)
    (removeFn : Option ModelSession → PILImage → Except String PILImage)
    (session : Option ModelSession) (u : UploadFile) (img : PILImage)
    (hfmt : (∃ s, u.content_type = some s ∧ ALLOWED_EXTENSIONS.contains s = true)
            ∨ extensionAllowed u.filename = true)
    (h0 : 0 < u.file.data.length)
    (hmax : u.file.data.length ≤ MAX_FILE_SIZE)
    (hdec : decode u.file.data = .ok img)
    (hrem : ∀ (sess : Option ModelSession) (i : PILImage),
      ∃ o : PILImage, removeFn sess i = .ok o
        ∧ o.width = i.width ∧ o.height = i.height) :
    ∃ hdr enc,
      remove_background session decode removeFn u
        = .streaming 200 "image/png" hdr enc
      ∧ enc.format = "PNG"
      ∧ enc.image.width = img.width
      ∧ enc.image.height = img.height
      ∧ formatSupportsAlpha enc.format = true := by
  have hfr : formatRejected u = false := by
    rcases hfmt with ⟨s, hct, hs⟩ | hext
    · simp only [formatRejected, hct, Option.getD_some, hs, Bool.not_true,
        Bool.and_false, Bool.false_and]
    · simp only [formatRejected, hext, Bool.not_true, Bool.and_false]
  have hval := validate_image_ok_of u hfr (Nat.pos_iff_ne_zero.mp h0) hmax
  obtain ⟨o, hro, how, hoh⟩ := hrem session (normalizeMode img)
  refine ⟨"attachment; filename=nobg_" ++ stemOf u.filename ++ ".png",
    ⟨"PNG", o⟩, ?_, rfl, ?_, ?_, rfl⟩
  · simp [remove_background, hval, process_image, hdec, hro]
  · rw [how, normalizeMode_width]
  · rw [hoh, normalizeMode_height]

/-- C1 witness: a 3-byte upload declared image/jpeg decoding to a 100 by
100 RGB image is answered with a 200 PNG response of the same dimensions. -/
theorem remove_bg_success_contract_witness :
    ∃ hdr enc,
      remove_background startupSession
          (fun _ => .ok ⟨100, 100, "RGB", false⟩)
          (fun _ i => .ok ⟨i.width, i.height, "RGBA", false⟩)
          ⟨some "image/jpeg", "photo.jpg", ⟨[1, 2, 3], 0⟩⟩
        = .streaming 200 "image/png" hdr enc
      ∧ enc.format = "PNG"
      ∧ enc.image.width = (⟨100, 100, "RGB", false⟩ : PILImage).width
      ∧ enc.image.height = (⟨100, 100, "RGB", false⟩ : PILImage).height
      ∧ formatSupportsAlpha enc.format = true :=
  remove_bg_success_contract
    (fun _ => .ok ⟨100, 100, "RGB", false⟩)
    (fun _ i => .ok ⟨i.width, i.height, "RGBA", false⟩)
    startupSession ⟨some "image/jpeg", "photo.jpg", ⟨[1, 2, 3], 0⟩⟩
    ⟨100, 100, "RGB", false⟩
    (Or.inl ⟨"image/jpeg", rfl, by decide⟩) (by decide) (by decide) rfl
    (fun sess i => ⟨⟨i.width, i.height, "RGBA", false⟩, rfl, rfl, rfl⟩)

/-- C2 counterexample: the premultiplied mode RGBa carries an alpha
channel, so its source declares transparency, yet the normalizer sends it
through the generic branch to RGB, a mode without alpha; the claim that no
step drops the alpha channel when the source declares transparency is
therefore false as stated. -/
theorem c2_counterexample :
    declaresTransparency ⟨100, 100, "RGBa", false⟩ = true
    ∧ modeHasAlpha (normalizeMode ⟨100, 100, "RGBa", false⟩).mode = false
    ∧ ¬ c2ClaimedProperty := by
  refine ⟨by decide, by decide, fun h => ?_⟩
  have h2 := (h ⟨100, 100, "RGBa", false⟩).2 (by decide)
  exact absurd h2 (by decide)

/-- C2 amended: the normalizer realizes the policy table exactly, mode for
mode, RGB and RGBA inputs pass through unchanged, and alpha is preserved
for every alpha-declaring input the table lists, namely RGBA,
grayscale-with-alpha, and paletted buffers with transparency metadata;
alpha-bearing modes outside the table, such as RGBa, La and PA, fall into
the generic branch and are converted to RGB, losing their alpha channel. -/
theorem normalizer_policy (img : PILImage) :
    (normalizeMode img).mode
        = specNormalizedMode img.mode img.hasTransparencyInfo
    ∧ ((img.mode = "RGB" ∨ img.mode = "RGBA") → normalizeMode img = img)
    ∧ ((img.mode = "RGBA" ∨ img.mode = "LA"
        ∨ (img.mode = "P" ∧ img.hasTransparencyInfo = true))
        → modeHasAlpha (normalizeMode img).mode = true) := by
  obtain ⟨w, h, m, t⟩ := img
  refine ⟨?_, ?_, ?_⟩
  · by_cases h1 : m = "RGB"
    · subst h1; rfl
    by_cases h2 : m = "RGBA"
    · subst h2; rfl
    by_cases h3 : m = "P"
    · subst h3; cases t <;> rfl
    by_cases h4 : m = "L"
    · subst h4; rfl
    by_cases h5 : m = "LA"
    · subst h5; rfl
    by_cases h6 : m = "1"
    · subst h6; rfl
    by_cases h7 : m = "CMYK"
    · subst h7; rfl
    · simp [normalizeMode, specNormalizedMode, convert, h1, h2, h3, h4, h5, h6, h7]
  · rintro (h1 | h1) <;> (subst h1; rfl)
  · rintro (h1 | h1 | ⟨h1, h2⟩)
    · subst h1; rfl
    · subst h1; rfl
    · subst h1; subst h2; rfl

/-- C2 amended witness: a grayscale-with-alpha buffer is normalized to a
mode that still carries alpha. -/
theorem normalizer_policy_witness :
    modeHasAlpha (normalizeMode ⟨32, 32, "LA", false⟩).mode = true :=
  (normalizer_policy ⟨32, 32, "LA", false⟩).2.2 (Or.inr (Or.inl rfl))

theorem dropThroughDot_append (xs ys : List Char) (h : '.' ∉ xs) :
    dropThroughDot (xs ++ '.' :: ys) = some ys := by
  induction xs with
  | nil => rfl
  | cons a as ih =>
    have ha : a ≠ '.' := fun hc => h (hc ▸ List.mem_cons_self a as)
    have hb : (a == '.') = false := by simp [ha]
    simp only [List.cons_append, dropThroughDot, hb, Bool.false_eq_true, if_false]
    exact ih fun hc => h (List.mem_cons_of_mem a hc)

theorem dropThroughDot_none (xs : List Char) (h : '.' ∉ xs) :
    dropThroughDot xs = none := by
  induction xs with
  | nil => rfl
  | cons a as ih =>
    have ha : a ≠ '.' := fun hc => h (hc ▸ List.mem_cons_self a as)
    have hb : (a == '.') = false := by simp [ha]
    simp only [dropThroughDot, hb, Bool.false_eq_true, if_false]
    exact ih fun hc => h (List.mem_cons_of_mem a hc)

theorem stemOf_append_ext (stem ext : String) (h : '.' ∉ ext.data) :
    stemOf (stem ++ "." ++ ext) = stem := by
  unfold stemOf
  have hdata : (stem ++ "." ++ ext).data = stem.data ++ '.' :: ext.data := by
    simp [String.data_append]
  rw [hdata]
  have hrev : (stem.data ++ '.' :: ext.data).reverse
      = ext.data.reverse ++ '.' :: stem.data.reverse := by
    simp
  rw [hrev, dropThroughDot_append _ _ (by simpa using h)]
  simp

theorem stemOf_no_dot (s : String) (h : '.' ∉ s.data) : stemOf s = s := by
  unfold stemOf
  rw [dropThroughDot_none _ (by simpa using h)]

/-- C7: every streaming response of the handler has status 200, media type
image/png and a Content-Disposition header equal to attachment with a
filename built by prepending nobg_ to the stem of the input filename and
appending .png; the stem is the input filename with everything from its
last dot on stripped, and a filename with no dot is its own stem. -/
theorem response_headers_contract :
    (∀ (session : Option ModelSession)
        (decode : List Nat → Except String PILImage)
        (removeFn : Option ModelSession → PILImage → Except String PILImage)
        (u : UploadFile) (c : Nat) (hdr : String) (enc : EncodedImage),
      remove_background session decode removeFn u
          = .streaming c "image/png" hdr enc →
      c = 200
        ∧ hdr = "attachment; filename=nobg_" ++ stemOf u.filename ++ ".png")
    ∧ (∀ stem ext : String, '.' ∉ ext.data →
        stemOf (stem ++ "." ++ ext) = stem)
    ∧ (∀ s : String, '.' ∉ s.data → stemOf s = s) := by
  refine ⟨?_, stemOf_append_ext, stemOf_no_dot⟩
  intro session decode removeFn u c hdr enc h
  unfold remove_background at h
  cases hv : validate_image u with
  | error e => rw [hv] at h; cases h
  | ok f' =>
    rw [hv] at h
    simp only at h
    cases hp : process_image decode removeFn session
        (f'.file.data.drop f'.file.pos) with
    | error e => rw [hp] at h; cases h
    | ok out =>
      rw [hp] at h
      injection h with h1 h2 h3 h4
      exact ⟨h1.symm, h3.symm⟩

/-- C7 witness: a successful run on the filename photo.old.jpg carries the
header derived from the stem photo.old, and the stem characterizations
hold at concrete filenames. -/
theorem response_headers_contract_witness :
    (200 = 200
      ∧ "attachment; filename=nobg_photo.old.png"
          = "attachment; filename=nobg_" ++ stemOf "photo.old.jpg" ++ ".png")
    ∧ stemOf ("photo" ++ "." ++ "jpg") = "photo"
    ∧ stemOf "noext" = "noext" :=
  ⟨response_headers_contract.1 startupSession
      (fun _ => .ok ⟨8, 8, "RGB", false⟩)
      (fun _ i => .ok ⟨i.width, i.height, "RGBA", false⟩)
      ⟨some "image/jpeg", "photo.old.jpg", ⟨[1], 0⟩⟩ 200
      "attachment; filename=nobg_photo.old.png" ⟨"PNG", ⟨8, 8, "RGBA", false⟩⟩
      (by decide),
   response_headers_contract.2.1 "photo" "jpg" (by decide),
   response_headers_contract.2.2 "noext" (by decide)⟩

/-- C8 counterexample: with the model session still None, a valid upload
is not rejected: the handler runs validation and processing as usual,
hands the None session to the inference call, and returns a 200 streaming
response; the claim that such requests fail rather than proceed is false. -/
theorem c8_counterexample :
    remove_background uninitializedSession
        (fun _ => .ok ⟨64, 64, "RGB", false⟩)
        (fun _ i => .ok ⟨i.width, i.height, "RGBA", false⟩)
        ⟨some "image/png", "cat.png", ⟨[9, 9], 0⟩⟩
      = .streaming 200 "image/png" "attachment; filename=nobg_cat.png"
          ⟨"PNG", ⟨64, 64, "RGBA", false⟩⟩
    ∧ ¬ c8ClaimedProperty := by
  refine ⟨by decide, fun h => ?_⟩
  exact h (fun _ => .ok ⟨64, 64, "RGB", false⟩)
      (fun _ i => .ok ⟨i.width, i.height, "RGBA", false⟩)
      ⟨some "image/png", "cat.png", ⟨[9, 9], 0⟩⟩
      "attachment; filename=nobg_cat.png" ⟨"PNG", ⟨64, 64, "RGBA", false⟩⟩
      (by decide)

/-- C8 amended: the handler performs no model-session check at all: every
failure it returns carries status 400 or 500, never a 503
service-unavailable, and a request arriving with a None session proceeds
into processing with the None session handed to the inference call. -/
theorem no_service_unavailable
    (session : Option ModelSession)
    (decode : List Nat → Except String PILImage)
    (removeFn : Option ModelSession → PILImage → Except String PILImage)
    (u : UploadFile) (c : Nat) (d : String)
    (h : remove_background session decode removeFn u = .failure c d) :
    c = 400 ∨ c = 500 := by
  unfold remove_background at h
  cases hv : validate_image u with
  | error e =>
    rw [hv] at h
    injection h with h1 _
    exact Or.inl (h1.symm.trans (validate_image_error_status u e hv))
  | ok f' =>
    rw [hv] at h
    simp only at h
    cases hp : process_image decode removeFn session
        (f'.file.data.drop f'.file.pos) with
    | error e =>
      rw [hp] at h
      injection h with h1 _
      exact Or.inr (h1.symm.trans (process_image_error_status _ _ _ _ _ hp))
    | ok out => rw [hp] at h; cases h

/-- C8 amended witness: a failure produced under a None session, here the
empty-file rejection, carries status 400. -/
theorem no_service_unavailable_witness :
    remove_background uninitializedSession (fun _ => .error "x")
        (fun _ _ => .error "x") ⟨some "image/png", "empty.png", ⟨[], 0⟩⟩
      = .failure 400 emptyDetail
    ∧ (400 = 400 ∨ 400 = 500) :=
  ⟨by decide,
   no_service_unavailable uninitializedSession (fun _ => .error "x")
    (fun _ _ => .error "x") ⟨some "image/png", "empty.png", ⟨[], 0⟩⟩
    400 emptyDetail (by decide)⟩

end BGAPI
